import Mathlib

/-!
Verification of the real-time message synchronization layer of the mai-tai
frontend (`src/frontend/hooks/use-websocket.ts`,
`src/frontend/app/(authenticated)/workspaces/[id]/page.tsx`,
`src/frontend/lib/api.ts`), shallowly embedded in Lean.

Times are in milliseconds (JS `Date.getTime()` values and `setTimeout`
delays), modelled as `Nat`.
-/

/-- `HEARTBEAT_INTERVAL_MS` from use-websocket.ts: send ping every 30 seconds. -/
def HEARTBEAT_INTERVAL_MS : Nat := 30000

/-- `PONG_TIMEOUT_MS` from use-websocket.ts: if no pong within 5 seconds, reconnect. -/
def PONG_TIMEOUT_MS : Nat := 5000

/-- The literal `3000` passed to `setTimeout` in `ws.onclose` in use-websocket.ts:
reconnect 3 seconds after a non-intentional close. -/
def RECONNECT_DELAY_MS : Nat := 3000

/-- The `Message` interface of `src/frontend/lib/api.ts`.  `created_at` is an ISO
timestamp string in the source; the page only ever uses it through
`new Date(created_at).getTime()`, so it is embedded directly as that `Nat`
epoch-millisecond value.  `message_metadata` is a JSON object, embedded as an
association list of string pairs (its contents are never inspected by the code
under verification). -/
structure Message where
  id : String
  workspace_id : String
  user_id : Option String
  agent_name : Option String
  sender_name : Option String
  sender_avatar_url : Option String
  content : String
  message_metadata : List (String × String)
  created_at : Nat
  message_type : String
deriving DecidableEq, Repr

/-- `handleWebSocketMessage` in page.tsx: push delivery into local state.
`setMessages((prev) => { if (prev.some((m) => m.id === message.id)) return prev;
... return [...prev, message]; })`.  The `playSound()` side effect on agent
messages does not touch the list and is not modelled. -/
def handleWebSocketMessage (prev : List Message) (m : Message) : List Message :=
  if prev.any (fun x => x.id == m.id) then prev else prev ++ [m]

/-- The comparison the catch-up merge sorts by:
`(a, b) => new Date(a.created_at).getTime() - new Date(b.created_at).getTime()`. -/
def createdLe (a b : Message) : Prop := a.created_at ≤ b.created_at

/-- Strict creation-time comparison, used to state the ordering claims. -/
def createdLt (a b : Message) : Prop := a.created_at < b.created_at

instance : DecidableRel createdLe := fun a b =>
  inferInstanceAs (Decidable (a.created_at ≤ b.created_at))

instance : DecidableRel createdLt := fun a b =>
  inferInstanceAs (Decidable (a.created_at < b.created_at))

instance : IsTotal Message createdLe :=
  ⟨fun a b => Nat.le_total a.created_at b.created_at⟩

instance : IsTrans Message createdLe :=
  ⟨fun _ _ _ h1 h2 => Nat.le_trans h1 h2⟩

/-- The list is in non-decreasing creation-time order. -/
def sortedByTime (l : List Message) : Prop := l.Pairwise createdLe

/-- The list is in strictly increasing creation-time order. -/
def strictlySortedByTime (l : List Message) : Prop := l.Pairwise createdLt

instance (l : List Message) : Decidable (sortedByTime l) :=
  inferInstanceAs (Decidable (l.Pairwise createdLe))

instance (l : List Message) : Decidable (strictlySortedByTime l) :=
  inferInstanceAs (Decidable (l.Pairwise createdLt))

/-- The catch-up merge of `handleVisibilityChange` in page.tsx:
`const existingIds = new Set(prev.map((m) => m.id));
const newMessages = res.messages.filter((m) => !existingIds.has(m.id));
if (newMessages.length > 0) return [...prev, ...newMessages].sort(by created_at);
return prev;`.
JS `Array.prototype.sort` with the numeric `created_at` comparator is a stable
ascending sort; every stable sort by the same total preorder yields the same
list, so it is embedded as Mathlib stable `insertionSort`. -/
def catchupMerge (prev batch : List Message) : List Message :=
  let existingIds := prev.map (fun m => m.id)
  let newMessages := batch.filter (fun m => !(existingIds.contains m.id))
  if newMessages.isEmpty then prev
  else List.insertionSort createdLe (prev ++ newMessages)

/-- `handleSendMessage` in page.tsx, list update only:
`setMessages([...messages, message])` where `message` is the server response. -/
def handleSendMessage (prev : List Message) (m : Message) : List Message :=
  prev ++ [m]

/-- Initial load in page.tsx: `getMessages(...).then((res) => setMessages(res.messages))`
replaces local state with the server list. -/
def initialLoad (serverMessages : List Message) : List Message := serverMessages

/-- The display predicate of page.tsx:
`messages.filter((m) => m.message_type !== 'system')`. -/
def displayKeep (messageType : String) : Bool := messageType != "system"

/-- Messages rendered by the chat area of page.tsx. -/
def visibleMessages (msgs : List Message) : List Message :=
  msgs.filter (fun m => displayKeep m.message_type)

/-- `const isAgent = !!message.agent_name;` in page.tsx.  JS truthiness: null and
the empty string are both falsy. -/
def isAgentMsg (m : Message) : Bool :=
  match m.agent_name with
  | none => false
  | some s => s != ""

/-- Shape of a request built by the `api()` helper of api.ts: endpoint path,
HTTP method and query parameters.  The helper appends no query string of its
own, so `query` lists exactly the parameters put into `endpoint` by a caller. -/
structure ApiRequest where
  path : String
  method : String
  query : List (String × String)
  body : List (String × String)
deriving DecidableEq, Repr

/-- `getMessages` in api.ts:
`api(endpoint, { token })` with endpoint `/api/v1/workspaces/WID/messages` and
default method GET.  It takes no cursor argument and sends no query parameters. -/
def getMessagesRequest (workspaceId : String) : ApiRequest :=
  { path := "/api/v1/workspaces/" ++ workspaceId ++ "/messages"
    method := "GET"
    query := []
    body := [] }

/-- The catch-up fetch in `handleVisibilityChange` of page.tsx:
`const res = await getMessages(token, workspaceId);` — the call passes only the
token and workspace id. -/
def catchupFetchRequest (workspaceId : String) : ApiRequest :=
  getMessagesRequest workspaceId

/-- `sendMessage` in api.ts: POST to the messages endpoint with body
`{ content, message_type: messageType }`. -/
def sendMessageRequest (workspaceId : String) (content : String)
    (messageType : String) : ApiRequest :=
  { path := "/api/v1/workspaces/" ++ workspaceId ++ "/messages"
    method := "POST"
    query := []
    body := [("content", content), ("message_type", messageType)] }

/-- The default value of the `messageType` parameter of `sendMessage` in api.ts. -/
def sendMessageDefaultType : String := "chat"

/-- The two call sites of `sendMessage` in page.tsx that create messages. -/
inductive SendSite
  /-- `handleSendMessage`: the chat composer; calls `sendMessage` without the
  `messageType` argument, so the default applies. -/
  | composer
  /-- `handleTogglePlanMode`: sends the plan-mode-disabled notice with an
  explicit kind argument. -/
  | planModeDisable
deriving DecidableEq, Repr

/-- The `message_type` string each frontend call site sends. -/
def frontendSentKind : SendSite → String
  | SendSite.composer => sendMessageDefaultType
  | SendSite.planModeDisable => "system"

/-- Modelled from the spec: `kind ∈ {chat, system}` as a closed tagged variant.
The server-side write path that assigns and validates the kind is not part of
the frontend sources. -/
inductive MessageKind
  | chat
  | system
deriving DecidableEq, Repr

/-- Wire representation of a message kind. -/
def MessageKind.toWire : MessageKind → String
  | MessageKind.chat => "chat"
  | MessageKind.system => "system"

/-- Follows the spec words (refinement target): the display rule written as an
exhaustive match on the closed variant — chat messages are shown, system
messages are hidden from the UI. -/
def specVisible : MessageKind → Bool
  | MessageKind.chat => true
  | MessageKind.system => false

/-- Modelled from the spec: the write path persists a kind drawn from the
closed variant; its wire form. -/
def persistedKindWire (k : MessageKind) : String := k.toWire

/-- Modelled from the spec: `sender` is "either a human identity or an agent
name — a tagged union, never both".  The server-side write path that builds
the sender is not part of the frontend sources; this is its spec model. -/
inductive Sender
  | human (userId : String)
  | agent (agentName : String)
deriving DecidableEq, Repr

/-- The `user_id` wire field produced for a sender. -/
def Sender.wireUserId : Sender → Option String
  | Sender.human u => some u
  | Sender.agent _ => none

/-- The `agent_name` wire field produced for a sender. -/
def Sender.wireAgentName : Sender → Option String
  | Sender.human _ => none
  | Sender.agent a => some a

/-- WebSocket ready states.  `opened` is the browser constant `WebSocket.OPEN`;
the name avoids the Lean keyword. -/
inductive ReadyState
  | connecting
  | opened
  | closing
  | closed
deriving DecidableEq, Repr

/-- The shape `JSON.parse(event.data)` is read at in `ws.onmessage` of
use-websocket.ts (the `WebSocketMessage` interface): a `type` tag and an
optional `message` payload. -/
structure WSParsed where
  type : String
  message : Option Message
deriving DecidableEq, Repr

/-- What one invocation of `ws.onmessage` does, observably. -/
inductive MsgOutcome
  /-- The frame was the literal text `pong`: the awaiting-pong flag is cleared,
  the pong timeout cancelled, no callback runs. -/
  | pongHandled
  /-- `data.type === 'new_message' && data.message && onMessageRef.current`:
  the consumer callback is invoked with the payload. -/
  | callback (m : Message)
  /-- Parsed, but not a deliverable new message (unknown type, missing payload,
  or no callback registered): nothing happens. -/
  | ignored
  /-- The body threw (unparsable data); the `catch` block logs and returns. -/
  | caughtError
deriving DecidableEq, Repr

/-- The `try` body of `ws.onmessage` in use-websocket.ts, with the JS exception
of `JSON.parse` made explicit as `Except.error`.  `parse` stands for
`JSON.parse` read at the `WebSocketMessage` shape: `none` means the parse threw.
`hasCb` is whether `onMessageRef.current` is set. -/
def onmessageBody (parse : String → Option WSParsed) (hasCb : Bool)
    (data : String) : Except String MsgOutcome :=
  if data = "pong" then Except.ok MsgOutcome.pongHandled
  else
    match parse data with
    | none => Except.error "SyntaxError"
    | some d =>
        if d.type = "new_message" then
          match d.message with
          | some m =>
              if hasCb then Except.ok (MsgOutcome.callback m)
              else Except.ok MsgOutcome.ignored
          | none => Except.ok MsgOutcome.ignored
        else Except.ok MsgOutcome.ignored

/-- The whole `ws.onmessage` handler: the body wrapped in
`try ... catch (err) { console.error(...) }` — an error is logged, never
rethrown, and the socket is left alone. -/
def onmessageHandler (parse : String → Option WSParsed) (hasCb : Bool)
    (data : String) : MsgOutcome :=
  match onmessageBody parse hasCb data with
  | Except.ok o => o
  | Except.error _ => MsgOutcome.caughtError

/-- A received frame, classified the way `ws.onmessage` distinguishes it:
the literal pong text, a deliverable new-message push, or anything else
(unknown type, missing payload, unparsable data — all inert). -/
inductive FrameData
  | pongText
  | newMessage (m : Message)
  | other
deriving DecidableEq, Repr

/-- Classification of a raw frame by the handler outcome. -/
def frameDataOf (parse : String → Option WSParsed) (hasCb : Bool)
    (data : String) : FrameData :=
  match onmessageHandler parse hasCb data with
  | MsgOutcome.pongHandled => FrameData.pongText
  | MsgOutcome.callback m => FrameData.newMessage m
  | MsgOutcome.ignored => FrameData.other
  | MsgOutcome.caughtError => FrameData.other

/-- Combined state of the `useWebSocket` hook (use-websocket.ts) and the
message list of the workspace page (page.tsx).  Timer refs are modelled by the
absolute times their callbacks are due; `reconnectDue` is a list because
`ws.onclose` overwrites `reconnectTimeoutRef` without clearing a pending timer,
so several can be outstanding (the ref then holds the last one).  The `pings`,
`closesIssued`, `connects` and `fetches` lists record, by time, the
observable actions the claims speak about. -/
structure ClientState where
  now : Nat
  readyState : ReadyState
  isConnected : Bool
  awaitingPong : Bool
  heartbeatDue : Option Nat
  pongDeadline : Option Nat
  reconnectDue : List Nat
  pings : List Nat
  closesIssued : List Nat
  connects : List Nat
  fetches : List Nat
  messages : List Message
deriving DecidableEq, Repr

/-- `clearHeartbeatTimers` in use-websocket.ts: clears the interval and the
pong timeout and resets `awaitingPongRef.current = false`. -/
def clearHeartbeat (s : ClientState) : ClientState :=
  { s with heartbeatDue := none, pongDeadline := none, awaitingPong := false }

/-- `connect()` in use-websocket.ts (with workspaceId and token present):
clears the heartbeat timers, closes any existing socket (a no-op when it is
already closing or closed), and creates a new `WebSocket`, leaving it in the
CONNECTING state. -/
def connectFn (t : Nat) (s : ClientState) : ClientState :=
  let s := clearHeartbeat s
  let s :=
    if s.readyState = ReadyState.opened ∨ s.readyState = ReadyState.connecting
    then { s with closesIssued := s.closesIssued ++ [t] }
    else s
  { s with readyState := ReadyState.connecting, connects := s.connects ++ [t] }

/-- The events that drive the hook and the page.  Timer firings are events so
that a trace can be required to fire them on time. -/
inductive Event
  /-- `ws.onopen`. -/
  | wsOpen
  /-- One firing of the `setInterval(..., HEARTBEAT_INTERVAL_MS)` callback. -/
  | heartbeatTick
  /-- `ws.onmessage` with the given (classified) frame. -/
  | frame (fd : FrameData)
  /-- Firing of the `setTimeout(..., PONG_TIMEOUT_MS)` pong-timeout callback. -/
  | pongTimeoutFire
  /-- `ws.onclose` with the given close code. -/
  | wsClose (code : Nat)
  /-- Firing of the `setTimeout(..., 3000)` reconnect callback of `ws.onclose`. -/
  | reconnectFire
  /-- The unmount cleanup of the main `useEffect`. -/
  | unmount
  /-- `visibilitychange` to visible: the page handler fetches and merges the
  given batch, and the hook handler reconnects. -/
  | visible (batch : List Message)
deriving DecidableEq, Repr

/-- One step of the client, translated handler by handler from
use-websocket.ts and page.tsx.  `t` is the wall-clock time of the event. -/
def step (s : ClientState) (te : Nat × Event) : ClientState :=
  let t := te.1
  let s := { s with now := t }
  match te.2 with
  | Event.wsOpen =>
      -- ws.onopen: setIsConnected(true); start the heartbeat interval.
      { s with readyState := ReadyState.opened, isConnected := true
               heartbeatDue := some (t + HEARTBEAT_INTERVAL_MS) }
  | Event.heartbeatTick =>
      -- the interval callback: fires every HEARTBEAT_INTERVAL_MS; sends a ping
      -- only `if (ws.readyState === WebSocket.OPEN && !awaitingPongRef.current)`,
      -- and then arms the pong timeout.
      let s := { s with heartbeatDue := some (t + HEARTBEAT_INTERVAL_MS) }
      if s.readyState = ReadyState.opened ∧ s.awaitingPong = false then
        { s with awaitingPong := true, pings := s.pings ++ [t]
                 pongDeadline := some (t + PONG_TIMEOUT_MS) }
      else s
  | Event.frame fd =>
      -- ws.onmessage: the pong branch clears the flag and cancels the timeout;
      -- a new_message frame is merged by handleWebSocketMessage; everything
      -- else (unknown type or caught parse error) changes nothing.
      match fd with
      | FrameData.pongText =>
          { s with awaitingPong := false, pongDeadline := none }
      | FrameData.newMessage m =>
          { s with messages := handleWebSocketMessage s.messages m }
      | FrameData.other => s
  | Event.pongTimeoutFire =>
      -- the pong-timeout callback: `if (awaitingPongRef.current) {
      -- awaitingPongRef.current = false; ws.close(); connect(); }`.
      let s := { s with pongDeadline := none }
      if s.awaitingPong then
        connectFn t
          { s with awaitingPong := false
                   readyState := ReadyState.closing
                   closesIssued := s.closesIssued ++ [t] }
      else s
  | Event.wsClose code =>
      -- ws.onclose: setIsConnected(false); clearHeartbeatTimers();
      -- `if (event.code !== 1000)` schedule connect() in 3000 ms.
      let s := clearHeartbeat
        { s with readyState := ReadyState.closed, isConnected := false }
      if code ≠ 1000 then
        { s with reconnectDue := s.reconnectDue ++ [t + RECONNECT_DELAY_MS] }
      else s
  | Event.reconnectFire =>
      -- the scheduled reconnect callback simply runs connect().
      connectFn t { s with reconnectDue := s.reconnectDue.erase t }
  | Event.unmount =>
      -- the useEffect cleanup: clearHeartbeatTimers(); clearTimeout of the
      -- last-stored reconnect ref; wsRef.current.close(1000, ...).
      let s := clearHeartbeat s
      { s with reconnectDue := s.reconnectDue.dropLast
               closesIssued := s.closesIssued ++ [t]
               readyState := ReadyState.closing }
  | Event.visible batch =>
      -- page.tsx handleVisibilityChange: await getMessages(...); merge by id;
      -- `if (!isConnected) reconnect();` — plus the hook visibility listener,
      -- which always runs connect() (its 100 ms wake-up delay is folded into t).
      let s := { s with fetches := s.fetches ++ [t]
                        messages := catchupMerge s.messages batch }
      let s := if s.isConnected then s else connectFn t s
      connectFn t s

/-- All pending timer due-times of a state. -/
def timers (s : ClientState) : List Nat :=
  s.heartbeatDue.toList ++ s.pongDeadline.toList ++ s.reconnectDue

/-- Whether an event can occur in a state at time `t`: timer events fire
exactly when due; sockets open only from CONNECTING, deliver frames only while
OPEN, and emit a close event only when not already closed. -/
def enabled (s : ClientState) (t : Nat) : Event → Bool
  | Event.wsOpen => decide (s.readyState = ReadyState.connecting)
  | Event.heartbeatTick => decide (s.heartbeatDue = some t)
  | Event.frame _ => decide (s.readyState = ReadyState.opened)
  | Event.pongTimeoutFire => decide (s.pongDeadline = some t)
  | Event.wsClose _ => decide (s.readyState ≠ ReadyState.closed)
  | Event.reconnectFire => s.reconnectDue.contains t
  | Event.unmount => true
  | Event.visible _ => true

/-- A trace of timed events is valid from a state when time never runs
backwards, no event is processed after a pending timer was already due
(timers fire on time), and each event is enabled. -/
def validFrom (s : ClientState) : List (Nat × Event) → Prop
  | [] => True
  | (t, e) :: rest =>
      s.now ≤ t ∧ (∀ d ∈ timers s, t ≤ d) ∧ enabled s t e = true ∧
        validFrom (step s (t, e)) rest

instance instDecidableValidFrom (s : ClientState) (tr : List (Nat × Event)) :
    Decidable (validFrom s tr) :=
  match tr with
  | [] => isTrue trivial
  | (t, e) :: rest =>
      haveI : Decidable (validFrom (step s (t, e)) rest) :=
        instDecidableValidFrom (step s (t, e)) rest
      inferInstanceAs (Decidable (s.now ≤ t ∧ (∀ d ∈ timers s, t ≤ d) ∧
        enabled s t e = true ∧ validFrom (step s (t, e)) rest))

/-- Run a trace from a state. -/
def run (s : ClientState) (tr : List (Nat × Event)) : ClientState :=
  tr.foldl step s

/-- Events whose handler tears the heartbeat down (directly, or by running
`connect()`, which begins with `clearHeartbeatTimers()`): these are the events
a silent-death scenario excludes while the pong timeout is pending. -/
def clearsHeartbeatEvt : Event → Bool
  | Event.frame FrameData.pongText => true
  | Event.wsClose _ => true
  | Event.reconnectFire => true
  | Event.unmount => true
  | Event.visible _ => true
  | _ => false

/-- The clearing events named by the claim: a pong frame or the pong-timeout
teardown. -/
def claimedClearEvents (e : Event) : Prop :=
  e = Event.frame FrameData.pongText ∨ e = Event.pongTimeoutFire

/-- The events that actually clear the awaiting-pong flag in the code: the
claimed two, plus everything that runs `clearHeartbeatTimers` — a socket close,
a scheduled reconnect, unmount, or a visibility-triggered reconnect. -/
def clearingEvents (e : Event) : Prop :=
  e = Event.frame FrameData.pongText ∨ e = Event.pongTimeoutFire ∨
    (∃ c, e = Event.wsClose c) ∨ e = Event.reconnectFire ∨ e = Event.unmount ∨
    ∃ b, e = Event.visible b

/-- A state with the hook freshly OPEN at time 0: the first heartbeat tick is
due at `HEARTBEAT_INTERVAL_MS`.  Used by concrete witnesses. -/
def cOpen : ClientState :=
  { now := 0, readyState := ReadyState.opened, isConnected := true
    awaitingPong := false, heartbeatDue := some HEARTBEAT_INTERVAL_MS
    pongDeadline := none, reconnectDue := [], pings := []
    closesIssued := [], connects := [], fetches := [], messages := [] }

/-- A state awaiting a pong, with the pong timeout pending. -/
def cAwait : ClientState :=
  { now := 30000, readyState := ReadyState.opened, isConnected := true
    awaitingPong := true, heartbeatDue := some 60000
    pongDeadline := some 35000, reconnectDue := [], pings := [30000]
    closesIssued := [], connects := [], fetches := [], messages := [] }

/-- A sample chat message with the given id and creation time, for concrete
witnesses and counterexamples. -/
def sampleMsg (i : String) (t : Nat) : Message :=
  { id := i, workspace_id := "w1", user_id := some "u1", agent_name := none
    sender_name := some "Ann", sender_avatar_url := none, content := "hello"
    message_metadata := [], created_at := t, message_type := "chat" }

/-- A catch-up batch entry that shares its id with `dupB` but differs in body. -/
def dupA : Message :=
  { id := "1", workspace_id := "w1", user_id := some "u1", agent_name := none
    sender_name := some "Ann", sender_avatar_url := none, content := "a"
    message_metadata := [], created_at := 1, message_type := "chat" }

/-- Second batch entry with the same id as `dupA`. -/
def dupB : Message :=
  { id := "1", workspace_id := "w1", user_id := some "u1", agent_name := none
    sender_name := some "Ann", sender_avatar_url := none, content := "b"
    message_metadata := [], created_at := 2, message_type := "chat" }

/-- A concrete stand-in for `JSON.parse` at the `WebSocketMessage` shape:
one string parses to a deliverable push, everything else fails to parse. -/
def parseDemo : String → Option WSParsed := fun dta =>
  if dta = "good"
  then some { type := "new_message", message := some (sampleMsg "1" 5) }
  else none

/-- The tail of the concrete silent-death trace used by the heartbeat witness:
the pong timeout fires five seconds after the ping, and the run continues past
the deadline. -/
def c1Rest : List (Nat × Event) :=
  [(30000 + PONG_TIMEOUT_MS, Event.pongTimeoutFire), (40000, Event.unmount)]

instance (e : Event) : Decidable (claimedClearEvents e) := by
  unfold claimedClearEvents
  infer_instance

/-! ## Helper lemmas -/

theorem run_cons (s : ClientState) (te : Nat × Event) (tr : List (Nat × Event)) :
    run s (te :: tr) = run (step s te) tr := rfl

theorem contains_iff_mem {α : Type} [BEq α] [LawfulBEq α] (l : List α) (a : α) :
    l.contains a = true ↔ a ∈ l := by
  induction l with
  | nil => simp
  | cons b bs ih => simp [List.contains_cons, ih]

theorem connectFn_connects (t : Nat) (s : ClientState) :
    (connectFn t s).connects = s.connects ++ [t] := by
  simp only [connectFn, clearHeartbeat]
  try split <;> rfl

theorem connectFn_readyState (t : Nat) (s : ClientState) :
    (connectFn t s).readyState = ReadyState.connecting := by
  simp only [connectFn, clearHeartbeat]

theorem connectFn_fetches (t : Nat) (s : ClientState) :
    (connectFn t s).fetches = s.fetches := by
  simp only [connectFn, clearHeartbeat]
  try split <;> rfl

theorem connectFn_messages (t : Nat) (s : ClientState) :
    (connectFn t s).messages = s.messages := by
  simp only [connectFn, clearHeartbeat]
  try split <;> rfl

theorem step_pongTimeout_effect (s : ClientState) (t : Nat)
    (h : s.awaitingPong = true) :
    (step s (t, Event.pongTimeoutFire)).closesIssued = s.closesIssued ++ [t] ∧
      (step s (t, Event.pongTimeoutFire)).connects = s.connects ++ [t] := by
  simp [step, h, connectFn, clearHeartbeat]

theorem catchupMerge_perm (prev batch : List Message) :
    (catchupMerge prev batch).Perm
      (prev ++ batch.filter (fun m => !((prev.map (fun x => x.id)).contains m.id))) := by
  unfold catchupMerge
  by_cases h :
      (batch.filter (fun m => !((prev.map (fun x => x.id)).contains m.id))).isEmpty
  · simp only [h, if_true]
    rw [List.isEmpty_iff] at h
    rw [h, List.append_nil]
  · simp only [h, if_false]
    exact List.perm_insertionSort createdLe _

/-! ## C2: reconnect policy of onclose -/

/-- C2: for every close event of the push connection, the `ws.onclose` handler
schedules exactly one reconnect, after the fixed 3-second delay and independent
of any previous attempts, when the close code is not 1000; and schedules none
when the close was the normal/intentional code 1000. -/
theorem close_reconnect_policy (s : ClientState) (t code : Nat) :
    (code ≠ 1000 →
      (step s (t, Event.wsClose code)).reconnectDue =
        s.reconnectDue ++ [t + RECONNECT_DELAY_MS]) ∧
    (code = 1000 →
      (step s (t, Event.wsClose code)).reconnectDue = s.reconnectDue) := by
  constructor <;> intro h <;> simp [step, clearHeartbeat, h]

/-- Witness for C2 at a concrete state: an abnormal close (1006) schedules one
reconnect exactly 3 seconds later; a normal close (1000) schedules none. -/
theorem close_reconnect_policy_witness :
    (step cOpen (31000, Event.wsClose 1006)).reconnectDue =
        [31000 + RECONNECT_DELAY_MS] ∧
      (step cOpen (31000, Event.wsClose 1000)).reconnectDue = [] :=
  ⟨(close_reconnect_policy cOpen 31000 1006).1 (by decide),
   (close_reconnect_policy cOpen 31000 1000).2 rfl⟩

/-! ## C5: the catch-up fetch is a full fetch, not a cursor fetch -/

/-- C5 counterexample: the catch-up fetch issued by `handleVisibilityChange`
is just `getMessages(token, workspaceId)` — the request for workspace `w1`
carries no query parameter at all, in particular no `since`/after-id cursor,
contradicting the claim that it requests only messages strictly after the last
known id. -/
theorem catchup_fetch_no_cursor_counterexample :
    catchupFetchRequest "w1" = getMessagesRequest "w1" ∧
      (catchupFetchRequest "w1").query = [] :=
  ⟨rfl, rfl⟩

/-- C5 amended: the catch-up fetch is not cursor-based — it GETs the full
message list of the workspace with no query parameters, and overlap with the
local list is discarded by the by-id merge: the merged list is a permutation
of the old list plus exactly those batch messages whose id was not already
present. -/
theorem catchup_full_fetch_amended :
    (∀ wid : String, (catchupFetchRequest wid).query = [] ∧
        (catchupFetchRequest wid).method = "GET") ∧
    (∀ prev batch : List Message,
      (catchupMerge prev batch).Perm
        (prev ++ batch.filter (fun m => !((prev.map (fun x => x.id)).contains m.id)))) :=
  ⟨fun _ => ⟨rfl, rfl⟩, fun prev batch => catchupMerge_perm prev batch⟩

/-! ## C7: sender is a tagged union -/

/-- C7 (spec-modelled write path): for every sender, exactly one of the
`user_id` and `agent_name` wire fields is set — never both, never neither. -/
theorem sender_tagged_union (s : Sender) :
    (s.wireUserId.isSome = true ∧ s.wireAgentName = none) ∨
      (s.wireUserId = none ∧ s.wireAgentName.isSome = true) := by
  cases s <;> simp [Sender.wireUserId, Sender.wireAgentName]

/-! ## C8: message kind is confined to the closed set -/

/-- C8: every message kind the frontend sends is one of the two closed-set
kinds (the composer sends the default `chat`, the plan-mode notice sends
`system`); the one place where kind drives behavior — the display filter —
agrees with the exhaustive closed-variant match on both variants; and the
(spec-modelled) persisted kind is always `chat` or `system`. -/
theorem message_kind_closed :
    (∀ site : SendSite,
        frontendSentKind site = MessageKind.toWire MessageKind.chat ∨
          frontendSentKind site = MessageKind.toWire MessageKind.system) ∧
    (∀ k : MessageKind, displayKeep (MessageKind.toWire k) = specVisible k) ∧
    (∀ k : MessageKind, persistedKindWire k = "chat" ∨ persistedKindWire k = "system") := by
  refine ⟨fun site => ?_, fun k => ?_, fun k => ?_⟩
  · cases site
    · exact Or.inl rfl
    · exact Or.inr rfl
  · cases k <;> rfl
  · cases k
    · exact Or.inl rfl
    · exact Or.inr rfl

/-! ## C9: at most one outstanding ping -/

/-- C9 counterexample: the claim says the awaiting-pong flag is cleared only by
a pong frame or the pong-timeout teardown, but `ws.onclose` also calls
`clearHeartbeatTimers()`, which resets the flag: a close event clears it too. -/
theorem awaiting_cleared_by_close_counterexample :
    cAwait.awaitingPong = true ∧
      (step cAwait (32000, Event.wsClose 1005)).awaitingPong = false ∧
      ¬ claimedClearEvents (Event.wsClose 1005) := by
  refine ⟨rfl, rfl, by decide⟩

/-- C9 amended: at most one ping is outstanding — a heartbeat tick while a
ping is awaiting its pong sends no new ping, and a tick on an open socket with
no outstanding ping sends one and raises the flag; and the awaiting-pong flag
is cleared only by a pong frame, the pong-timeout teardown, or a heartbeat
teardown (socket close, scheduled reconnect, unmount, or a visibility-triggered
reconnect — each of these runs `clearHeartbeatTimers`). -/
theorem single_outstanding_ping :
    (∀ (s : ClientState) (t : Nat), s.awaitingPong = true →
        (step s (t, Event.heartbeatTick)).pings = s.pings) ∧
    (∀ (s : ClientState) (t : Nat), s.readyState = ReadyState.opened →
        s.awaitingPong = false →
        (step s (t, Event.heartbeatTick)).pings = s.pings ++ [t] ∧
          (step s (t, Event.heartbeatTick)).awaitingPong = true) ∧
    (∀ (s : ClientState) (t : Nat) (e : Event), s.awaitingPong = true →
        (step s (t, e)).awaitingPong = false → clearingEvents e) := by
  refine ⟨fun s t h => ?_, fun s t hr h => ?_, fun s t e h h2 => ?_⟩
  · simp [step, h]
  · constructor <;> simp [step, hr, h]
  · cases e with
    | wsOpen => simp [step, h] at h2
    | heartbeatTick => simp [step, h] at h2
    | frame fd =>
        cases fd with
        | pongText => exact Or.inl rfl
        | newMessage m => simp [step, h] at h2
        | other => simp [step, h] at h2
    | pongTimeoutFire => exact Or.inr (Or.inl rfl)
    | wsClose c => exact Or.inr (Or.inr (Or.inl ⟨c, rfl⟩))
    | reconnectFire => exact Or.inr (Or.inr (Or.inr (Or.inl rfl)))
    | unmount => exact Or.inr (Or.inr (Or.inr (Or.inr (Or.inl rfl))))
    | visible b => exact Or.inr (Or.inr (Or.inr (Or.inr (Or.inr ⟨b, rfl⟩))))

/-- Witness for C9 at a concrete state: while awaiting a pong the tick sends
nothing; from the fresh open state the first tick sends one ping and raises
the flag; and a pong frame does clear the flag. -/
theorem single_outstanding_ping_witness :
    cAwait.awaitingPong = true ∧
      (step cAwait (60000, Event.heartbeatTick)).pings = cAwait.pings ∧
      (step cOpen (30000, Event.heartbeatTick)).pings = cOpen.pings ++ [30000] ∧
      ((step cAwait (31000, Event.frame FrameData.pongText)).awaitingPong = false →
        clearingEvents (Event.frame FrameData.pongText)) :=
  ⟨rfl, single_outstanding_ping.1 cAwait 60000 rfl,
   (single_outstanding_ping.2.1 cOpen 30000 rfl rfl).1,
   fun h2 => single_outstanding_ping.2.2 cAwait 31000 (Event.frame FrameData.pongText) rfl h2⟩

/-! ## C4: what happens on close versus on visibility -/

/-- C4 counterexample: a non-intentional close (code 1006) at a concrete state
schedules a reconnect but issues no catch-up fetch — the fetch list stays
empty — contradicting the claim that every non-intentional transition into
CLOSED both reopens a session and issues a catch-up fetch. -/
theorem close_without_fetch_counterexample :
    (step cOpen (31000, Event.wsClose 1006)).reconnectDue =
        [31000 + RECONNECT_DELAY_MS] ∧
      (step cOpen (31000, Event.wsClose 1006)).fetches = [] := by
  exact ⟨rfl, rfl⟩

/-- C4 amended: on a non-intentional close, the client only schedules a
reconnect (fixed 3 s) — no catch-up fetch is issued and the local list is
untouched; the catch-up fetch and by-id merge happen on regaining foreground
visibility, which also always opens a new push session. -/
theorem close_and_visibility_actions :
    (∀ (s : ClientState) (t code : Nat), code ≠ 1000 →
        (step s (t, Event.wsClose code)).reconnectDue =
            s.reconnectDue ++ [t + RECONNECT_DELAY_MS] ∧
          (step s (t, Event.wsClose code)).fetches = s.fetches ∧
          (step s (t, Event.wsClose code)).messages = s.messages) ∧
    (∀ (s : ClientState) (t : Nat) (batch : List Message),
        (step s (t, Event.visible batch)).fetches = s.fetches ++ [t] ∧
          (step s (t, Event.visible batch)).messages = catchupMerge s.messages batch ∧
          (step s (t, Event.visible batch)).readyState = ReadyState.connecting ∧
          s.connects.length < (step s (t, Event.visible batch)).connects.length) := by
  constructor
  · intro s t code h
    refine ⟨?_, ?_, ?_⟩ <;> simp [step, clearHeartbeat, h]
  · intro s t batch
    refine ⟨?_, ?_, ?_, ?_⟩
    · show (step s (t, Event.visible batch)).fetches = s.fetches ++ [t]
      simp only [step]
      split <;> simp [connectFn_fetches]
    · show (step s (t, Event.visible batch)).messages = catchupMerge s.messages batch
      simp only [step]
      split <;> simp [connectFn_messages]
    · show (step s (t, Event.visible batch)).readyState = ReadyState.connecting
      simp only [step]
      split <;> simp [connectFn_readyState]
    · show s.connects.length < (step s (t, Event.visible batch)).connects.length
      simp only [step]
      split <;> simp [connectFn_connects]

/-- Witness for C4 amended at concrete inputs: an abnormal close leaves the
fetch log alone while scheduling the reconnect; a visibility event fetches,
merges and reconnects. -/
theorem close_and_visibility_witness :
    (1006 ≠ 1000) ∧
      (step cOpen (31000, Event.wsClose 1006)).fetches = cOpen.fetches ∧
      (step cOpen (40000, Event.visible [])).fetches = cOpen.fetches ++ [40000] ∧
      (step cOpen (40000, Event.visible [])).readyState = ReadyState.connecting :=
  ⟨by decide, (close_and_visibility_actions.1 cOpen 31000 1006 (by decide)).2.1,
   (close_and_visibility_actions.2 cOpen 40000 []).1,
   (close_and_visibility_actions.2 cOpen 40000 []).2.2.1⟩

/-! ## C10: frame filtering in onmessage -/

/-- C10: the consumer callback runs only for a frame that parses at the
expected shape with type `new_message` and a present payload (and a registered
callback); when the body throws (unparsable data) the catch absorbs it and the
handler returns normally; and no received frame ever changes the socket state
or issues a close or a connect. -/
theorem onmessage_filtering :
    (∀ (parse : String → Option WSParsed) (hasCb : Bool) (data : String) (m : Message),
        onmessageHandler parse hasCb data = MsgOutcome.callback m →
        data ≠ "pong" ∧ hasCb = true ∧
          ∃ d, parse data = some d ∧ d.type = "new_message" ∧ d.message = some m) ∧
    (∀ (parse : String → Option WSParsed) (hasCb : Bool) (data err : String),
        onmessageBody parse hasCb data = Except.error err →
        onmessageHandler parse hasCb data = MsgOutcome.caughtError) ∧
    (∀ (s : ClientState) (t : Nat) (fd : FrameData),
        (step s (t, Event.frame fd)).readyState = s.readyState ∧
          (step s (t, Event.frame fd)).closesIssued = s.closesIssued ∧
          (step s (t, Event.frame fd)).connects = s.connects) := by
  refine ⟨?_, ?_, ?_⟩
  · intro parse hasCb data m h
    by_cases hpong : data = "pong"
    · simp [onmessageHandler, onmessageBody, hpong] at h
    · cases hp : parse data with
      | none => simp [onmessageHandler, onmessageBody, hpong, hp] at h
      | some d =>
          by_cases ht : d.type = "new_message"
          · cases hm : d.message with
            | none => simp [onmessageHandler, onmessageBody, hpong, hp, ht, hm] at h
            | some m2 =>
                cases hasCb with
                | false => simp [onmessageHandler, onmessageBody, hpong, hp, ht, hm] at h
                | true =>
                    simp only [onmessageHandler, onmessageBody, if_neg hpong, hp, if_pos ht,
                      hm, if_true, MsgOutcome.callback.injEq] at h
                    subst h
                    exact ⟨hpong, rfl, d, rfl, ht, hm⟩
          · simp [onmessageHandler, onmessageBody, hpong, hp, ht] at h
  · intro parse hasCb data err h
    unfold onmessageHandler
    rw [h]
  · intro s t fd
    cases fd <;> exact ⟨rfl, rfl, rfl⟩

/-- Witness for C10 at a concrete parse function: the well-formed frame
invokes the callback and satisfies the characterization; the malformed frame
makes the body throw and the handler swallow it. -/
theorem onmessage_filtering_witness :
    onmessageHandler parseDemo true "good" = MsgOutcome.callback (sampleMsg "1" 5) ∧
      ("good" ≠ "pong" ∧ true = true ∧
        ∃ d, parseDemo "good" = some d ∧ d.type = "new_message" ∧
          d.message = some (sampleMsg "1" 5)) ∧
      onmessageBody parseDemo true "bad" = Except.error "SyntaxError" ∧
      onmessageHandler parseDemo true "bad" = MsgOutcome.caughtError :=
  ⟨by decide,
   onmessage_filtering.1 parseDemo true "good" (sampleMsg "1" 5) (by decide),
   rfl,
   onmessage_filtering.2.1 parseDemo true "bad" "SyntaxError" rfl⟩

/-! ## C3: merging is deduplicated by id and idempotent -/

theorem not_contains_of_not_mem {α : Type} [BEq α] [LawfulBEq α]
    (l : List α) (a : α) (h : a ∉ l) : l.contains a = false := by
  cases hcb : l.contains a
  · rfl
  · exact absurd ((contains_iff_mem l a).mp hcb) h

theorem catchupMerge_of_no_new (prev batch : List Message)
    (h : batch.filter (fun m => !((prev.map (fun x => x.id)).contains m.id)) = []) :
    catchupMerge prev batch = prev := by
  simp only [catchupMerge]
  rw [h]
  rfl

theorem catchupMerge_idem (prev batch : List Message) :
    catchupMerge (catchupMerge prev batch) batch = catchupMerge prev batch := by
  have hsub : ∀ m ∈ batch, m.id ∈ (catchupMerge prev batch).map (fun x => x.id) := by
    intro m hm
    have hperm := (catchupMerge_perm prev batch).map (fun x => x.id)
    rw [hperm.mem_iff, List.map_append, List.mem_append]
    by_cases hc : m.id ∈ prev.map (fun x => x.id)
    · exact Or.inl hc
    · refine Or.inr (List.mem_map.mpr ⟨m, List.mem_filter.mpr ⟨hm, ?_⟩, rfl⟩)
      rw [not_contains_of_not_mem _ _ hc]
      rfl
  refine catchupMerge_of_no_new _ _ ?_
  rw [List.filter_eq_nil_iff]
  intro a ha
  rw [(contains_iff_mem _ _).mpr (hsub a ha)]
  simp

theorem push_merge_drop (prev : List Message) (m : Message)
    (h : prev.any (fun x => x.id == m.id) = true) :
    handleWebSocketMessage prev m = prev := by
  unfold handleWebSocketMessage
  rw [if_pos h]

theorem push_merge_nodup (prev : List Message) (m : Message)
    (hp : (prev.map (fun x => x.id)).Nodup) :
    ((handleWebSocketMessage prev m).map (fun x => x.id)).Nodup := by
  unfold handleWebSocketMessage
  by_cases h : prev.any (fun x => x.id == m.id)
  · rw [if_pos h]; exact hp
  · rw [if_neg h, List.map_append, List.nodup_append]
    refine ⟨hp, List.nodup_singleton _, ?_⟩
    intro a ha hb
    simp only [List.map_cons, List.map_nil, List.mem_singleton] at hb
    subst hb
    obtain ⟨x, hx, hxid⟩ := List.mem_map.mp ha
    exact h (List.any_eq_true.mpr ⟨x, hx, by simp [hxid]⟩)

theorem catchupMerge_nodup (prev batch : List Message)
    (hp : (prev.map (fun x => x.id)).Nodup)
    (hb : (batch.map (fun x => x.id)).Nodup) :
    ((catchupMerge prev batch).map (fun x => x.id)).Nodup := by
  have hperm := (catchupMerge_perm prev batch).map (fun x => x.id)
  rw [hperm.nodup_iff, List.map_append, List.nodup_append]
  refine ⟨hp, ?_, ?_⟩
  · exact hb.sublist ((List.filter_sublist batch).map (fun x => x.id))
  · intro a ha hb2
    obtain ⟨m, hmf, rfl⟩ := List.mem_map.mp hb2
    have hflt := (List.mem_filter.mp hmf).2
    rw [(contains_iff_mem _ _).mpr ha] at hflt
    simp at hflt

/-- C3 counterexample: a catch-up batch that itself contains two entries with
the same id (the claim quantifies over every batch) is merged with both
entries kept — the resulting list has a duplicated id. -/
theorem catchup_duplicate_batch_counterexample :
    ¬ (((catchupMerge [] [dupA, dupB]).map (fun x => x.id)).Nodup) := by decide

/-- C3 amended: applying the same catch-up batch twice equals applying it once
(unconditionally); a pushed message whose id is already present is dropped;
and provided the local list and the batch each carry pairwise-distinct ids (as
reads of the append-only log do), neither a push delivery nor a catch-up merge
ever produces two entries with the same id. -/
theorem merge_by_id_dedup :
    (∀ prev batch : List Message,
        catchupMerge (catchupMerge prev batch) batch = catchupMerge prev batch) ∧
    (∀ (prev : List Message) (m : Message),
        prev.any (fun x => x.id == m.id) = true →
        handleWebSocketMessage prev m = prev) ∧
    (∀ (prev : List Message) (m : Message), (prev.map (fun x => x.id)).Nodup →
        ((handleWebSocketMessage prev m).map (fun x => x.id)).Nodup) ∧
    (∀ prev batch : List Message, (prev.map (fun x => x.id)).Nodup →
        (batch.map (fun x => x.id)).Nodup →
        ((catchupMerge prev batch).map (fun x => x.id)).Nodup) :=
  ⟨catchupMerge_idem, push_merge_drop, push_merge_nodup, catchupMerge_nodup⟩

/-- Witness for C3 at concrete lists: re-pushing an already-present id leaves
the list unchanged, and a distinct-id catch-up batch merges without creating a
duplicate id. -/
theorem merge_by_id_witness :
    ([sampleMsg "1" 1].any (fun x => x.id == (sampleMsg "1" 1).id) = true) ∧
      handleWebSocketMessage [sampleMsg "1" 1] (sampleMsg "1" 1) = [sampleMsg "1" 1] ∧
      (([sampleMsg "1" 1].map (fun x => x.id)).Nodup ∧
        ([sampleMsg "2" 2].map (fun x => x.id)).Nodup) ∧
      ((catchupMerge [sampleMsg "1" 1] [sampleMsg "2" 2]).map (fun x => x.id)).Nodup :=
  ⟨by decide, merge_by_id_dedup.2.1 _ _ (by decide), ⟨by decide, by decide⟩,
   merge_by_id_dedup.2.2.2 _ _ (by decide) (by decide)⟩

/-! ## C6: ordering of the local message list -/

/-- C6 counterexample: push delivery appends at the tail without re-sorting,
so delivering a message whose creation time precedes the list tail leaves the
list out of strictly increasing creation-time order. -/
theorem push_out_of_order_counterexample :
    ¬ strictlySortedByTime
        (handleWebSocketMessage [sampleMsg "1" 10] (sampleMsg "2" 5)) := by decide

/-- C6 amended: push delivery and local send preserve strictly increasing
creation-time order exactly when the incoming message is strictly newer than
everything present; the catch-up merge re-sorts, keeping the list in
non-decreasing creation-time order from any sorted starting list; the initial
load adopts the server order unchanged. -/
theorem ordering_amended :
    (∀ (prev : List Message) (m : Message), strictlySortedByTime prev →
        (∀ x ∈ prev, x.created_at < m.created_at) →
        strictlySortedByTime (handleWebSocketMessage prev m)) ∧
    (∀ (prev : List Message) (m : Message), strictlySortedByTime prev →
        (∀ x ∈ prev, x.created_at < m.created_at) →
        strictlySortedByTime (handleSendMessage prev m)) ∧
    (∀ prev batch : List Message, sortedByTime prev →
        sortedByTime (catchupMerge prev batch)) ∧
    (∀ l : List Message, sortedByTime l → sortedByTime (initialLoad l)) := by
  have happend : ∀ (prev : List Message) (m : Message),
      strictlySortedByTime prev → (∀ x ∈ prev, x.created_at < m.created_at) →
      strictlySortedByTime (prev ++ [m]) := by
    intro prev m hs hlt
    refine List.pairwise_append.mpr ⟨hs, by simp, ?_⟩
    intro a ha b hb
    simp only [List.mem_singleton] at hb
    subst hb
    exact hlt a ha
  refine ⟨?_, ?_, ?_, fun l h => h⟩
  · intro prev m hs hlt
    unfold handleWebSocketMessage
    by_cases h : prev.any (fun x => x.id == m.id)
    · rw [if_pos h]; exact hs
    · rw [if_neg h]; exact happend prev m hs hlt
  · intro prev m hs hlt
    exact happend prev m hs hlt
  · intro prev batch hs
    unfold catchupMerge
    by_cases h :
        (batch.filter (fun m => !((prev.map (fun x => x.id)).contains m.id))).isEmpty
    · simp only [h, if_true]; exact hs
    · simp only [h, if_false]
      exact List.sorted_insertionSort createdLe _

/-- Witness for C6 amended at concrete lists: appending a strictly newer push
keeps strict order; a catch-up merge from a sorted list yields a sorted list. -/
theorem ordering_witness :
    strictlySortedByTime [sampleMsg "1" 1] ∧
      (∀ x ∈ [sampleMsg "1" 1], x.created_at < (sampleMsg "2" 2).created_at) ∧
      strictlySortedByTime
        (handleWebSocketMessage [sampleMsg "1" 1] (sampleMsg "2" 2)) ∧
      sortedByTime (catchupMerge [sampleMsg "1" 1] [sampleMsg "3" 3]) :=
  ⟨by decide, by decide,
   ordering_amended.1 _ _ (by decide) (by decide),
   ordering_amended.2.2.1 _ _ (by decide)⟩

/-! ## C1: heartbeat timeout tears the session down and reconnects -/

theorem run_nil (s : ClientState) : run s [] = s := rfl

theorem pongDeadline_fires (D : Nat) (tr : List (Nat × Event)) :
    ∀ s : ClientState,
      s.awaitingPong = true → s.pongDeadline = some D →
      validFrom s tr →
      (∀ te ∈ tr, te.1 ≤ D → clearsHeartbeatEvt te.2 = false) →
      (∃ te ∈ tr, D < te.1) →
      ∃ i, tr.get? i = some (D, Event.pongTimeoutFire) ∧
        (run s (tr.take (i + 1))).closesIssued.contains D = true ∧
        (run s (tr.take (i + 1))).connects.contains D = true := by
  induction tr with
  | nil =>
      intro s _ _ _ _ hex
      simp at hex
  | cons te tl ih =>
      obtain ⟨t, e⟩ := te
      intro s ha hd hv hsafe hex
      obtain ⟨hnow, htimers, hen, hv2⟩ := hv
      have htD : t ≤ D := htimers D (by simp [timers, hd])
      have hcont : (step s (t, e)).awaitingPong = true →
          (step s (t, e)).pongDeadline = some D →
          ∃ i, ((t, e) :: tl).get? i = some (D, Event.pongTimeoutFire) ∧
            (run s (((t, e) :: tl).take (i + 1))).closesIssued.contains D = true ∧
            (run s (((t, e) :: tl).take (i + 1))).connects.contains D = true := by
        intro hpa hpd
        have hsafe2 : ∀ te2 ∈ tl, te2.1 ≤ D → clearsHeartbeatEvt te2.2 = false :=
          fun te2 hm hle => hsafe te2 (List.mem_cons_of_mem _ hm) hle
        have hex2 : ∃ te2 ∈ tl, D < te2.1 := by
          obtain ⟨te2, hm, hlt⟩ := hex
          rcases List.mem_cons.mp hm with heq | hm2
          · rw [heq] at hlt
            simp only at hlt
            omega
          · exact ⟨te2, hm2, hlt⟩
        obtain ⟨i, hi, hc, hk⟩ := ih (step s (t, e)) hpa hpd hv2 hsafe2 hex2
        refine ⟨i + 1, ?_, ?_, ?_⟩
        · simpa using hi
        · rw [List.take_succ_cons, run_cons]; exact hc
        · rw [List.take_succ_cons, run_cons]; exact hk
      cases e with
      | wsOpen => exact hcont ha hd
      | heartbeatTick =>
          refine hcont ?_ ?_ <;> simp [step, ha, hd]
      | frame fd =>
          cases fd with
          | pongText =>
              have hcl := hsafe (t, Event.frame FrameData.pongText)
                (List.mem_cons_self _ _) htD
              simp [clearsHeartbeatEvt] at hcl
          | newMessage m => exact hcont ha hd
          | other => exact hcont ha hd
      | pongTimeoutFire =>
          simp only [enabled, decide_eq_true_eq] at hen
          rw [hd] at hen
          have htEq : t = D := by
            have := hen.symm
            simpa using this
          subst htEq
          obtain ⟨hc, hk⟩ := step_pongTimeout_effect s t ha
          refine ⟨0, by simp, ?_, ?_⟩
          · rw [List.take_succ_cons, List.take_zero, run_cons, run_nil, hc]
            exact (contains_iff_mem _ _).mpr (by simp)
          · rw [List.take_succ_cons, List.take_zero, run_cons, run_nil, hk]
            exact (contains_iff_mem _ _).mpr (by simp)
      | wsClose c =>
          have hcl := hsafe (t, Event.wsClose c) (List.mem_cons_self _ _) htD
          simp [clearsHeartbeatEvt] at hcl
      | reconnectFire =>
          have hcl := hsafe (t, Event.reconnectFire) (List.mem_cons_self _ _) htD
          simp [clearsHeartbeatEvt] at hcl
      | unmount =>
          have hcl := hsafe (t, Event.unmount) (List.mem_cons_self _ _) htD
          simp [clearsHeartbeatEvt] at hcl
      | visible b =>
          have hcl := hsafe (t, Event.visible b) (List.mem_cons_self _ _) htD
          simp [clearsHeartbeatEvt] at hcl

/-- C1: while the session is OPEN the heartbeat tick fires on the fixed
30-second cadence (a tick at `t0` schedules the next at exactly
`t0 + HEARTBEAT_INTERVAL_MS`) and, with no ping outstanding, sends a ping at
`t0`; and in any valid continuation in which no pong frame arrives by
`t0 + PONG_TIMEOUT_MS` (and no other teardown of the session intervenes
before then), the pong timeout fires exactly at `t0 + PONG_TIMEOUT_MS`,
closing the socket and beginning a reconnect attempt at that same instant —
in particular within `RECONNECT_DELAY_MS` (3 s) of the closure. -/
theorem heartbeat_timeout_closes_and_reconnects
    (s : ClientState) (t0 : Nat) (rest : List (Nat × Event))
    (hopen : s.readyState = ReadyState.opened) (hnp : s.awaitingPong = false)
    (hv : validFrom s ((t0, Event.heartbeatTick) :: rest))
    (hsafe : ∀ te ∈ rest, te.1 ≤ t0 + PONG_TIMEOUT_MS →
      clearsHeartbeatEvt te.2 = false)
    (hlate : ∃ te ∈ rest, t0 + PONG_TIMEOUT_MS < te.1) :
    (step s (t0, Event.heartbeatTick)).pings = s.pings ++ [t0] ∧
    (step s (t0, Event.heartbeatTick)).heartbeatDue =
        some (t0 + HEARTBEAT_INTERVAL_MS) ∧
    ∃ i, rest.get? i = some (t0 + PONG_TIMEOUT_MS, Event.pongTimeoutFire) ∧
      (run (step s (t0, Event.heartbeatTick))
          (rest.take (i + 1))).closesIssued.contains (t0 + PONG_TIMEOUT_MS) = true ∧
      (run (step s (t0, Event.heartbeatTick))
          (rest.take (i + 1))).connects.contains (t0 + PONG_TIMEOUT_MS) = true ∧
      t0 + PONG_TIMEOUT_MS ≤ (t0 + PONG_TIMEOUT_MS) + RECONNECT_DELAY_MS := by
  obtain ⟨-, -, -, hv2⟩ := hv
  have hping : (step s (t0, Event.heartbeatTick)).pings = s.pings ++ [t0] := by
    simp [step, hopen, hnp]
  have hhb : (step s (t0, Event.heartbeatTick)).heartbeatDue =
      some (t0 + HEARTBEAT_INTERVAL_MS) := by
    simp [step, hopen, hnp]
  have hpa : (step s (t0, Event.heartbeatTick)).awaitingPong = true := by
    simp [step, hopen, hnp]
  have hpd : (step s (t0, Event.heartbeatTick)).pongDeadline =
      some (t0 + PONG_TIMEOUT_MS) := by
    simp [step, hopen, hnp]
  obtain ⟨i, hi, hc, hk⟩ :=
    pongDeadline_fires (t0 + PONG_TIMEOUT_MS) rest
      (step s (t0, Event.heartbeatTick)) hpa hpd hv2 hsafe hlate
  exact ⟨hping, hhb, i, hi, hc, hk, Nat.le_add_right _ _⟩

/-- Witness for C1 on a concrete silent-death trace: the session opens, the
tick at 30000 sends a ping, no pong ever arrives, the pong timeout fires at
35000 closing the socket, and a reconnect is recorded at that same instant. -/
theorem heartbeat_timeout_witness :
    validFrom cOpen ((30000, Event.heartbeatTick) :: c1Rest) ∧
      (step cOpen (30000, Event.heartbeatTick)).pings = cOpen.pings ++ [30000] ∧
      ∃ i, c1Rest.get? i = some (30000 + PONG_TIMEOUT_MS, Event.pongTimeoutFire) ∧
        (run (step cOpen (30000, Event.heartbeatTick))
            (c1Rest.take (i + 1))).closesIssued.contains
              (30000 + PONG_TIMEOUT_MS) = true ∧
        (run (step cOpen (30000, Event.heartbeatTick))
            (c1Rest.take (i + 1))).connects.contains
              (30000 + PONG_TIMEOUT_MS) = true := by
  have h := heartbeat_timeout_closes_and_reconnects cOpen 30000 c1Rest rfl rfl
    (by decide) (by decide) (by decide)
  obtain ⟨hping, -, i, hi, hc, hk, -⟩ := h
  exact ⟨by decide, hping, i, hi, hc, hk⟩
